import Mathlib

/-!
Verification of `NanoExecutionEngine.cpp` (pre-trade risk gate and
execution-engine lifecycle) against its natural-language specification.

The C++ source is shallowly embedded below: `double` values become `DVal`
(NaN, infinities, or a finite rational), the stateless `PreTradeRiskGate`
class becomes an empty structure with a pure decision function, and the
engine's run loop and lifecycle flag become explicit state passing with a
fuel argument for the loop.
-/

/-- A C++ `double` value, shallowly embedded: NaN, an infinity, or a finite
rational.  Only order and finiteness of doubles matter to the program, so a
rational payload is an exact model of every finite double the claims touch. -/
inductive DVal where
  | nan : DVal
  | negInf : DVal
  | posInf : DVal
  | fin (q : ℚ) : DVal
deriving DecidableEq

/-- IEEE-754 `<=` on embedded doubles: every comparison involving NaN is
false; `-inf` is below and `+inf` above every non-NaN value. -/
def DVal.dle : DVal → DVal → Bool
  | DVal.nan, _ => false
  | _, DVal.nan => false
  | DVal.negInf, _ => true
  | _, DVal.negInf => false
  | _, DVal.posInf => true
  | DVal.posInf, _ => false
  | DVal.fin a, DVal.fin b => decide (a ≤ b)

/-- The `Order` struct from the source: one trade intent.
`long` fields are embedded as `Int`, `double` fields as `DVal`;
`side` is a free `int` in the source (1=Buy, 2=Sell by comment only). -/
structure Order where
  orderId : Int
  instrumentId : Int
  price : DVal
  quantity : DVal
  side : Int
deriving DecidableEq

/-- The `PreTradeRiskGate` class: it declares no member variables, so its
state space is this empty structure (a single value). -/
structure PreTradeRiskGate where
deriving DecidableEq

instance : Inhabited PreTradeRiskGate := ⟨⟨⟩⟩

/-- `PreTradeRiskGate::isSafe(const Order&, double)`: the source computes
`bool safe = (order.quantity <= maxPosition);` and returns it.  The gate
object is a parameter (the member function's implicit `this`) but no member
is read or written. -/
def PreTradeRiskGate.isSafe : PreTradeRiskGate → Order → DVal → Bool :=
  fun _ order maxPosition => order.quantity.dle maxPosition

/-- Evaluating a sequence of orders through one gate instance, threading the
gate state exactly as the member-function calls do: `isSafe` writes no
member, so the state passed to each call is the state left by the previous
one.  Returns the final gate state and the list of decisions. -/
def runGate (g : PreTradeRiskGate) (maxPosition : DVal) :
    List Order → PreTradeRiskGate × List Bool
  | [] => (g, [])
  | o :: os =>
    let d := PreTradeRiskGate.isSafe g o maxPosition
    let (g', ds) := runGate g maxPosition os
    (g', d :: ds)

/-!
Spec-side model of the gate the specification describes (§4.2), kept apart
from the source embedding above so the two can be compared.  These
definitions follow the spec's words, not the code.
-/

/-- Modelled from the spec: the risk limits §3 describes (per-order maximum
quantity, maximum aggregate position, and the price sanity band).  The
source has no such structure; `isSafe` receives only a bare `maxPosition`. -/
structure SpecRiskLimits where
  maxOrderQty : ℚ
  maxPosition : ℚ
  bandLo : ℚ
  bandHi : ℚ
deriving DecidableEq

/-- Modelled from the spec: reject reasons, the closed set of §7. -/
inductive SpecReason where
  | invalidSide : SpecReason
  | quantityExceedsLimit : SpecReason
  | positionLimitExceeded : SpecReason
  | priceOutOfBand : SpecReason
deriving DecidableEq

/-- Modelled from the spec: the gate decision, accept (the spec's Admit) or
reject with a reason. -/
inductive SpecDecision where
  | accept : SpecDecision
  | reject (r : SpecReason) : SpecDecision
deriving DecidableEq

/-- Modelled from the spec: check 1, `side` is one of the two recognized
values (1=Buy, 2=Sell). -/
def specSideValid (o : Order) : Bool :=
  decide (o.side = 1) || decide (o.side = 2)

/-- Modelled from the spec: check 2, `quantity` is non-negative and does not
exceed the instrument's maximum order quantity (a non-finite quantity fails). -/
def specQtyCheck (o : Order) (L : SpecRiskLimits) : Bool :=
  match o.quantity with
  | DVal.fin q => decide (0 ≤ q) && decide (q ≤ L.maxOrderQty)
  | _ => false

/-- Modelled from the spec: check 3, the order does not push the aggregate
outstanding position `pos` past the configured maximum position. -/
def specPositionCheck (pos : ℚ) (o : Order) (L : SpecRiskLimits) : Bool :=
  match o.quantity with
  | DVal.fin q => decide (pos + q ≤ L.maxPosition)
  | _ => false

/-- Modelled from the spec: check 4, `price` is finite and within the
configured sanity band. -/
def specPriceCheck (o : Order) (L : SpecRiskLimits) : Bool :=
  match o.price with
  | DVal.fin p => decide (L.bandLo ≤ p) && decide (p ≤ L.bandHi)
  | _ => false

/-- Modelled from the spec: `evaluate(order, limits)` given the current
aggregate position `pos`: Admit only if all four checks pass, otherwise
Reject with the reason chosen by the fixed priority order
InvalidSide > QuantityExceedsLimit > PositionLimitExceeded > PriceOutOfBand. -/
def specEvaluate (pos : ℚ) (o : Order) (L : SpecRiskLimits) : SpecDecision :=
  if specSideValid o then
    if specQtyCheck o L then
      if specPositionCheck pos o L then
        if specPriceCheck o L then SpecDecision.accept
        else SpecDecision.reject SpecReason.priceOutOfBand
      else SpecDecision.reject SpecReason.positionLimitExceeded
    else SpecDecision.reject SpecReason.quantityExceedsLimit
  else SpecDecision.reject SpecReason.invalidSide

/-- Modelled from the spec: the sum of the quantities of the orders the gate
(as implemented, `isSafe`) admits in a run — what §8 says the tracked
aggregate position must equal at any point.  Non-finite quantities
contribute nothing. -/
def specAdmittedSum (g : PreTradeRiskGate) (m : DVal) : List Order → ℚ
  | [] => 0
  | o :: os =>
    (if PreTradeRiskGate.isSafe g o m then
        match o.quantity with
        | DVal.fin q => q
        | _ => 0
      else 0) + specAdmittedSum g m os

/-!
The execution engine.  `_running` is the `std::atomic<bool>` flag; the
claims about it are settled in a sequentially interleaved model of the
single-writer flag (the loop and `stop()` steps alternate in some order).
-/

/-- Observable actions of one loop-body execution.  The source body contains
only commented-out polling/risk/send code and a live `yield`. -/
inductive LoopAction where
  | yieldCpu : LoopAction
  | pollOrder (o : Order) : LoopAction
  | riskCheck (o : Order) (d : Bool) : LoopAction
  | sendToWire (o : Order) : LoopAction
deriving DecidableEq

/-- The `NanoExecutionEngine` class: its state is the `_running` flag and
the (stateless) risk gate member. -/
structure NanoExecutionEngine where
  _running : Bool
  _riskGate : PreTradeRiskGate
deriving DecidableEq

/-- The constructor `NanoExecutionEngine() : _running(true) {}`. -/
def NanoExecutionEngine.new : NanoExecutionEngine :=
  { _running := true, _riskGate := ⟨⟩ }

/-- `stop()`: the single store `_running.store(false)`. -/
def NanoExecutionEngine.stop (e : NanoExecutionEngine) : NanoExecutionEngine :=
  { e with _running := false }

/-- One execution of the loop body of `runLoop`: every live statement is the
`yield`; no order is constructed, evaluated, or sent, and no member is
written. -/
def NanoExecutionEngine.loopBody (e : NanoExecutionEngine) :
    NanoExecutionEngine × List LoopAction :=
  (e, [LoopAction.yieldCpu])

/-- `runLoop` with fuel `n` bounding the number of guard checks: each
iteration loads `_running`; when false the loop exits at once, when true the
body runs and the loop repeats.  Returns the engine state at exit and the
concatenated actions of the executed iterations. -/
def NanoExecutionEngine.runLoop : Nat → NanoExecutionEngine → NanoExecutionEngine × List LoopAction
  | 0, e => (e, [])
  | n + 1, e =>
    if e._running then
      let (e', as) := e.loopBody
      let (e'', rest) := NanoExecutionEngine.runLoop n e'
      (e'', as ++ rest)
    else (e, [])

/-- The operations that can touch an engine instance after construction:
a loop iteration (body execution) or a `stop()` call. -/
inductive EngineOp where
  | iterate : EngineOp
  | stopCall : EngineOp
deriving DecidableEq

/-- Effect of one operation on the engine state. -/
def NanoExecutionEngine.applyOp : EngineOp → NanoExecutionEngine → NanoExecutionEngine
  | EngineOp.iterate, e => (e.loopBody).1
  | EngineOp.stopCall, e => e.stop

/-- Effect of a sequence of operations, applied left to right. -/
def NanoExecutionEngine.applyOps : List EngineOp → NanoExecutionEngine → NanoExecutionEngine
  | [], e => e
  | op :: ops, e => NanoExecutionEngine.applyOps ops (NanoExecutionEngine.applyOp op e)

/-- Result of running `main`: the lines printed, the return value, and
whether `runLoop` was entered. -/
structure MainResult where
  output : List String
  exitCode : Int
  enteredLoop : Bool
deriving DecidableEq

/-- `main` from the source: prints the startup banner, constructs an engine,
leaves the `engine.runLoop()` call commented out, and returns 0. -/
def mainProgram : MainResult :=
  let _engine := NanoExecutionEngine.new
  { output := ["[METAL] Starting NanoExecutionEngine..."]
    exitCode := 0
    enteredLoop := false }

/-!
Helper lemmas shared by the claim theorems.
-/

/-- The gate's state space is a single value: the class has no members. -/
theorem PreTradeRiskGate.eq_all (g g' : PreTradeRiskGate) : g = g' := by
  cases g; cases g'; rfl

/-- A run of the gate leaves the state unchanged and the decisions are the
pointwise application of `isSafe`. -/
theorem runGate_eq (g : PreTradeRiskGate) (m : DVal) (os : List Order) :
    runGate g m os = (g, os.map (fun o => PreTradeRiskGate.isSafe g o m)) := by
  induction os with
  | nil => rfl
  | cons o os ih => simp [runGate, ih]

/-- Once `_running` is false, the loop exits at the very next guard check:
no iteration runs, no action is emitted, the state is unchanged. -/
theorem runLoop_stopped (n : Nat) (e : NanoExecutionEngine)
    (h : e._running = false) :
    NanoExecutionEngine.runLoop n e = (e, []) := by
  cases n with
  | zero => rfl
  | succ n => simp [NanoExecutionEngine.runLoop, h]

/-- No engine operation ever sets `_running` back to true. -/
theorem applyOps_stopped (ops : List EngineOp) (e : NanoExecutionEngine)
    (h : e._running = false) :
    (NanoExecutionEngine.applyOps ops e)._running = false := by
  induction ops generalizing e with
  | nil => exact h
  | cons op ops ih =>
    cases op with
    | iterate =>
      simp only [NanoExecutionEngine.applyOps, NanoExecutionEngine.applyOp,
        NanoExecutionEngine.loopBody]
      exact ih e h
    | stopCall =>
      simp only [NanoExecutionEngine.applyOps, NanoExecutionEngine.applyOp]
      exact ih e.stop rfl

/-- A spec-side Admit verdict means the position check passed. -/
theorem specEvaluate_accept_position (pos : ℚ) (o : Order) (L : SpecRiskLimits)
    (h : specEvaluate pos o L = SpecDecision.accept) :
    specPositionCheck pos o L = true := by
  unfold specEvaluate at h
  by_cases h1 : specSideValid o = true <;> simp [h1] at h
  by_cases h2 : specQtyCheck o L = true <;> simp [h2] at h
  by_cases h3 : specPositionCheck pos o L = true <;> simp [h3] at h
  exact h3

/-!
Claim theorems.
-/

/-- Claim C1, counterexample: an order with invalid side (3) and an
in-range quantity is admitted by `isSafe` even though the spec's
four-check evaluation rejects it — so `isSafe` does not return Admit only
when all four checks pass. -/
theorem C1_counterexample :
    PreTradeRiskGate.isSafe ⟨⟩ ⟨1, 1, DVal.fin 10, DVal.fin 5, 3⟩ (DVal.fin 1000) = true ∧
    specEvaluate 0 ⟨1, 1, DVal.fin 10, DVal.fin 5, 3⟩ ⟨100, 1000, 0, 1000⟩ =
      SpecDecision.reject SpecReason.invalidSide := by
  decide

/-- Claim C1 (amended): every order that the spec's four-check evaluation
admits (at zero current position) is admitted by `isSafe` when the gate is
fed the configured maximum position, but admission by `isSafe` is exactly
the single IEEE comparison quantity ≤ maxPosition — the side, per-order
quantity, and price checks are not performed. -/
theorem C1_gate (g : PreTradeRiskGate) (o : Order) (L : SpecRiskLimits)
    (hadm : specEvaluate 0 o L = SpecDecision.accept) :
    PreTradeRiskGate.isSafe g o (DVal.fin L.maxPosition) = true ∧
    ∀ m : DVal, (PreTradeRiskGate.isSafe g o m = true ↔ DVal.dle o.quantity m = true) := by
  refine ⟨?_, fun m => Iff.rfl⟩
  have hpos := specEvaluate_accept_position 0 o L hadm
  unfold specPositionCheck at hpos
  show DVal.dle o.quantity (DVal.fin L.maxPosition) = true
  cases hq : o.quantity with
  | fin q =>
    rw [hq] at hpos
    simp at hpos
    simp [DVal.dle]
    linarith
  | nan => rw [hq] at hpos; simp at hpos
  | negInf => rw [hq] at hpos; simp at hpos
  | posInf => rw [hq] at hpos; simp at hpos

attribute [local semireducible] Rat.add in
/-- Claim C1, witness for `C1_gate` at a concrete spec-admitted order. -/
theorem C1_gate_witness :
    PreTradeRiskGate.isSafe ⟨⟩ ⟨1, 1, DVal.fin 10, DVal.fin 50, 1⟩ (DVal.fin 1000) = true :=
  (C1_gate ⟨⟩ ⟨1, 1, DVal.fin 10, DVal.fin 50, 1⟩ ⟨100, 1000, 0, 1000⟩ (by decide)).1

attribute [local semireducible] Rat.add in
/-- Claim C2, counterexample: an admitted order (decision `true`, quantity
50) leaves the gate's entire state identical to the state of a run that
processed no orders at all, while the spec's admitted-quantity sums differ
(50 vs 0) — so no position state is updated when an order is admitted. -/
theorem C2_counterexample :
    (runGate ⟨⟩ (DVal.fin 1000) [⟨1, 1, DVal.fin 100, DVal.fin 50, 1⟩]).2 = [true] ∧
    (runGate ⟨⟩ (DVal.fin 1000) [⟨1, 1, DVal.fin 100, DVal.fin 50, 1⟩]).1 =
      (runGate ⟨⟩ (DVal.fin 1000) ([] : List Order)).1 ∧
    specAdmittedSum ⟨⟩ (DVal.fin 1000) [⟨1, 1, DVal.fin 100, DVal.fin 50, 1⟩] = 50 ∧
    specAdmittedSum ⟨⟩ (DVal.fin 1000) ([] : List Order) = 0 := by
  decide

/-- Claim C2 (amended): the gate maintains no position state at all — its
state space is a single value, any run leaves the state unchanged, and each
decision is a pure function of the order and `maxPosition` alone, so no
component of the gate state tracks the sum of admitted quantities. -/
theorem C2_gate (g : PreTradeRiskGate) (m : DVal) (os : List Order) :
    (runGate g m os).1 = g ∧
    (runGate g m os).2 = os.map (fun o => PreTradeRiskGate.isSafe g o m) ∧
    ∀ g' : PreTradeRiskGate, g' = g := by
  refine ⟨?_, ?_, fun g' => PreTradeRiskGate.eq_all g' g⟩ <;> simp [runGate_eq]

/-- Claim C3, counterexample: an order violating the side predicate (side=3)
— which the spec's priority rule would reject as InvalidSide — is not
rejected at all: `isSafe` returns `true`. -/
theorem C3_counterexample :
    specEvaluate 0 ⟨2, 2, DVal.fin 20, DVal.fin 7, 3⟩ ⟨100, 1000, 0, 1000⟩ =
      SpecDecision.reject SpecReason.invalidSide ∧
    PreTradeRiskGate.isSafe ⟨⟩ ⟨2, 2, DVal.fin 20, DVal.fin 7, 3⟩ (DVal.fin 1000) = true := by
  decide

/-- Claim C3 (amended): the gate's result is a bare boolean carrying no
reason code; it rejects (returns `false`) exactly when the quantity is not
≤ `maxPosition` under IEEE comparison, and violations of the side or price
predicates never affect the result. -/
theorem C3_gate (g : PreTradeRiskGate) (o : Order) (m : DVal) :
    (PreTradeRiskGate.isSafe g o m = false ↔ DVal.dle o.quantity m = false) ∧
    ∀ (s : Int) (p : DVal),
      PreTradeRiskGate.isSafe g ⟨o.orderId, o.instrumentId, p, o.quantity, s⟩ m =
        PreTradeRiskGate.isSafe g o m := by
  exact ⟨Iff.rfl, fun s p => rfl⟩

/-- Claim C4: calling `stop()` on a running engine makes the loop exit at
the very next guard check (zero further iterations, no actions, state
unchanged), no order is ever polled afterwards, and no later operation can
leave the stopped state. -/
theorem C4_stop_exits (e : NanoExecutionEngine) (n : Nat) (_h : e._running = true) :
    NanoExecutionEngine.runLoop n e.stop = (e.stop, []) ∧
    (e.stop)._running = false ∧
    (∀ o : Order, LoopAction.pollOrder o ∉ (NanoExecutionEngine.runLoop n e.stop).2) ∧
    (∀ ops : List EngineOp, (NanoExecutionEngine.applyOps ops e.stop)._running = false) := by
  have hs : (e.stop)._running = false := rfl
  have hr := runLoop_stopped n e.stop hs
  refine ⟨hr, hs, ?_, fun ops => applyOps_stopped ops e.stop hs⟩
  intro o
  rw [hr]
  simp

/-- Claim C4, witness for `C4_stop_exits`: the freshly constructed engine,
stopped, runs zero iterations on any fuel. -/
theorem C4_stop_exits_witness :
    NanoExecutionEngine.runLoop 3 NanoExecutionEngine.new.stop =
      (NanoExecutionEngine.new.stop, []) :=
  (C4_stop_exits NanoExecutionEngine.new 3 rfl).1

/-- Claim C5: two gate instances initialized alike and fed the same ordered
order sequence with the same limit produce identical decision sequences and
identical final states — `isSafe` reads nothing but its arguments. -/
theorem C5_determinism (g g' : PreTradeRiskGate) (m : DVal) (os : List Order) :
    runGate g m os = runGate g' m os := by
  rw [PreTradeRiskGate.eq_all g g']

/-- Claim C6, counterexample: an order with side=3 and in-range quantity is
admitted (`isSafe` true) instead of being rejected as InvalidSide the way
the spec's evaluation demands. -/
theorem C6_counterexample :
    PreTradeRiskGate.isSafe ⟨⟩ ⟨3, 1, DVal.fin 1, DVal.fin 4, 3⟩ (DVal.fin 10) = true ∧
    specEvaluate 0 ⟨3, 1, DVal.fin 1, DVal.fin 4, 3⟩ ⟨10, 10, 0, 10⟩ =
      SpecDecision.reject SpecReason.invalidSide := by
  decide

/-- Claim C6 (amended): an order with side=3 is never rejected for its side
— `side` is ignored and the decision is exactly the quantity comparison;
the (stateless) gate state is unchanged by the call. -/
theorem C6_side3 (g : PreTradeRiskGate) (i j : Int) (p q m : DVal) :
    PreTradeRiskGate.isSafe g ⟨i, j, p, q, 3⟩ m = DVal.dle q m ∧
    (runGate g m [⟨i, j, p, q, 3⟩]).1 = g := by
  exact ⟨rfl, rfl⟩

attribute [local semireducible] Rat.add in
/-- Claim C7, counterexample: an order with NaN price and valid side and
quantity — which the spec's evaluation rejects as PriceOutOfBand — is
admitted by `isSafe`. -/
theorem C7_counterexample :
    PreTradeRiskGate.isSafe ⟨⟩ ⟨4, 1, DVal.nan, DVal.fin 5, 1⟩ (DVal.fin 10) = true ∧
    specEvaluate 0 ⟨4, 1, DVal.nan, DVal.fin 5, 1⟩ ⟨10, 10, 0, 10⟩ =
      SpecDecision.reject SpecReason.priceOutOfBand := by
  decide

/-- Claim C7 (amended): `isSafe` never reads `price`: an order with NaN
price is decided exactly by the quantity comparison, and any two orders
differing only in price receive the same decision — no PriceOutOfBand
rejection exists in the code. -/
theorem C7_nanPrice (g : PreTradeRiskGate) (i j : Int) (q : DVal) (s : Int) (m : DVal) :
    PreTradeRiskGate.isSafe g ⟨i, j, DVal.nan, q, s⟩ m = DVal.dle q m ∧
    ∀ p p' : DVal,
      PreTradeRiskGate.isSafe g ⟨i, j, p, q, s⟩ m =
        PreTradeRiskGate.isSafe g ⟨i, j, p', q, s⟩ m := by
  exact ⟨rfl, fun p p' => rfl⟩

/-- Claim C8: `isSafe` returns true exactly when the order's quantity is
≤ `maxPosition` under IEEE comparison; it depends on no other field of the
order, and in particular a negative quantity below the limit is judged
safe. -/
theorem C8_isSafe_quantity_only (g : PreTradeRiskGate) (o : Order) (m : DVal) :
    (PreTradeRiskGate.isSafe g o m = true ↔ DVal.dle o.quantity m = true) ∧
    (∀ (i j : Int) (p : DVal) (s : Int),
      PreTradeRiskGate.isSafe g ⟨i, j, p, o.quantity, s⟩ m =
        PreTradeRiskGate.isSafe g o m) ∧
    (∀ q : ℚ, q < 0 → DVal.dle (DVal.fin q) m = true →
      PreTradeRiskGate.isSafe g
        ⟨o.orderId, o.instrumentId, o.price, DVal.fin q, o.side⟩ m = true) := by
  exact ⟨Iff.rfl, fun i j p s => rfl, fun q _ hq => hq⟩

/-- Claim C8, witness for `C8_isSafe_quantity_only`: a quantity of −5
against a maximum position of 10 is judged safe. -/
theorem C8_isSafe_quantity_only_witness :
    PreTradeRiskGate.isSafe ⟨⟩ ⟨7, 7, DVal.fin 1, DVal.fin (-5), 1⟩ (DVal.fin 10) = true :=
  (C8_isSafe_quantity_only ⟨⟩ ⟨7, 7, DVal.fin 1, DVal.fin 0, 1⟩ (DVal.fin 10)).2.2
    (-5) (by decide) (by decide)

/-- Claim C9: the loop body only yields — it polls, risk-checks, and sends
nothing — and `main` never enters the loop: it prints the startup banner
and returns 0. -/
theorem C9_stub_main :
    mainProgram.enteredLoop = false ∧
    mainProgram.exitCode = 0 ∧
    mainProgram.output = ["[METAL] Starting NanoExecutionEngine..."] ∧
    ∀ e : NanoExecutionEngine,
      (e.loopBody).2 = [LoopAction.yieldCpu] ∧
      ∀ o : Order,
        LoopAction.pollOrder o ∉ (e.loopBody).2 ∧
        LoopAction.sendToWire o ∉ (e.loopBody).2 ∧
        ∀ d : Bool, LoopAction.riskCheck o d ∉ (e.loopBody).2 := by
  refine ⟨rfl, rfl, rfl, fun e => ⟨rfl, fun o => ⟨?_, ?_, fun d => ?_⟩⟩⟩ <;>
    simp [NanoExecutionEngine.loopBody]

/-- Claim C10: the constructor sets `_running` to true; `stop()` is the only
operation that writes the flag and writes only false; a loop iteration
leaves it untouched; and once false it stays false under every further
operation sequence. -/
theorem C10_running_flag :
    NanoExecutionEngine.new._running = true ∧
    (∀ e : NanoExecutionEngine, (e.stop)._running = false) ∧
    (∀ e : NanoExecutionEngine,
      (NanoExecutionEngine.applyOp EngineOp.iterate e)._running = e._running ∧
      NanoExecutionEngine.applyOp EngineOp.stopCall e = e.stop) ∧
    (∀ (e : NanoExecutionEngine) (ops : List EngineOp), e._running = false →
      (NanoExecutionEngine.applyOps ops e)._running = false) := by
  exact ⟨rfl, fun e => rfl, fun e => ⟨rfl, rfl⟩, fun e ops h => applyOps_stopped ops e h⟩

/-- Claim C10, witness for `C10_running_flag`: after stopping the fresh
engine, an iteration followed by another stop leaves the flag false. -/
theorem C10_running_flag_witness :
    (NanoExecutionEngine.applyOps [EngineOp.iterate, EngineOp.stopCall]
      NanoExecutionEngine.new.stop)._running = false :=
  C10_running_flag.2.2.2 NanoExecutionEngine.new.stop [EngineOp.iterate, EngineOp.stopCall] rfl
